import Mathlib

/-!
Verification of the wedopp library (single header `include/wedopp.hpp`).

The development shallowly embeds the protocol/data layer of the library:

* `wedopp.DeviceType` / `wedopp.getDeviceType` — the peripheral-type decode
  table (`Device::getDeviceType`, switch on the raw status byte);
* `wedopp.File` / `wedopp.Processor` — the raw channel and the 9-byte
  read/write report protocol (`detail::Processor`), modelled with explicit
  state passing: a `File` carries the pending input reports and the trace of
  transmitted output reports;
* `wedopp.Device` / `wedopp.Hub` — the slot views and the hub;
* `wedopp.findHubs` — the discovery scan, modelled over an abstract list of
  enumeration steps (each step is either a candidate device with the
  outcomes of its probing operations, or an enumeration failure with an
  error code), following the structure of the source's scan loop.

Bytes are modelled as `Nat` (all values written by the code are in range by
construction, and the claims carry explicit `< 256` bounds where relevant).
C++ exceptions become `Option`/`Except` results; the try/catch per-candidate
recovery in `findHubs` becomes the `Option` result of `probeCandidate`.
-/

namespace wedopp

/-- Peripheral types, from `Device::Type` in the source. -/
inductive DeviceType : Type where
  | none
  | motor
  | servoMotor
  | light
  | distanceSensor
  | tiltSensor
  deriving DecidableEq, Repr

/-- The decode table, translated case-for-case from the `switch` statement in
`Device::getDeviceType` (src/include/wedopp.hpp lines 278-316). -/
def getDeviceType (b : Nat) : DeviceType :=
  match b with
  | 38 | 39 => .tiltSensor
  | 102 | 103 => .servoMotor
  | 177 | 178 | 179 | 180 => .distanceSensor
  | 202 | 203 | 204 | 205 => .light
  | 231 => .none
  | 0 | 1 | 2 | 3 | 239 | 240 | 241 => .motor
  | _ => .none

/-- The decode table as the SPEC states it (section 4.2 of spec.md): written
from the spec's words, to be compared with `getDeviceType` from the source. -/
def specDecodeTable (b : Nat) : DeviceType :=
  if b = 38 ∨ b = 39 then .tiltSensor
  else if b = 102 ∨ b = 103 then .servoMotor
  else if 177 ≤ b ∧ b ≤ 180 then .distanceSensor
  else if 202 ≤ b ∧ b ≤ 205 then .light
  else if b = 231 then .none
  else if b ≤ 3 ∨ b = 239 ∨ b = 240 ∨ b = 241 then .motor
  else .none

/-- The raw channel (`detail::File`): the pending input reports (each `read`
consumes one) and the trace of transmitted output reports (each `write`
appends one). -/
structure File : Type where
  input : List (List Nat)
  output : List (List Nat)
  deriving DecidableEq, Repr

/-- `File::read`: a fixed-size blocking read; fails (throws
`std::system_error` in the source) when the channel yields nothing. -/
def File.read : File → Option (List Nat × File)
  | ⟨[], _⟩ => Option.none
  | ⟨r :: rest, out⟩ => some (r, ⟨rest, out⟩)

/-- `File::write`: transmits one report, appending it to the output trace. -/
def File.write (f : File) (data : List Nat) : File :=
  ⟨f.input, f.output ++ [data]⟩

/-- Read-buffer offset of the type byte for a slot: `4U + slot * 2U`
(src/include/wedopp.hpp line 220). -/
def readTypeIndex (slot : Nat) : Nat := 4 + slot * 2

/-- Read-buffer offset of the value byte for a slot: `3U + slot * 2U`
(src/include/wedopp.hpp line 226). -/
def readValueIndex (slot : Nat) : Nat := 3 + slot * 2

/-- Write-buffer offset of the value byte for a slot: `2U + slot`
(src/include/wedopp.hpp line 232). -/
def writeValueIndex (slot : Nat) : Nat := 2 + slot

/-- `detail::Processor`: the owned channel plus the two 9-byte scratch
buffers (`std::array<std::uint8_t, 9>`). -/
structure Processor : Type where
  file : File
  readBuffer : List Nat
  writeBuffer : List Nat
  deriving DecidableEq, Repr

/-- The `Processor(File f)` constructor: both scratch buffers are
zero-initialized (`std::array<std::uint8_t, 9> readBuffer{}` /
`writeBuffer{}`). -/
def Processor.make (f : File) : Processor :=
  ⟨f, List.replicate 9 0, List.replicate 9 0⟩

/-- `Processor::readType`: a fresh fixed-size read into the scratch read
buffer, then return the byte at offset `4 + slot*2`. -/
def Processor.readType (p : Processor) (slot : Nat) : Option (Nat × Processor) :=
  match p.file.read with
  | Option.none => Option.none
  | some (r, f) =>
    let p := { p with file := f, readBuffer := r }
    some (p.readBuffer.getD (readTypeIndex slot) 0, p)

/-- `Processor::readValue`: a fresh fixed-size read into the scratch read
buffer, then return the byte at offset `3 + slot*2`. -/
def Processor.readValue (p : Processor) (slot : Nat) : Option (Nat × Processor) :=
  match p.file.read with
  | Option.none => Option.none
  | some (r, f) =>
    let p := { p with file := f, readBuffer := r }
    some (p.readBuffer.getD (readValueIndex slot) 0, p)

/-- `Processor::writeValue`: set write-buffer offset 1 to the constant 64 and
offset `2 + slot` to the value, then transmit the whole write buffer. -/
def Processor.writeValue (p : Processor) (slot value : Nat) : Processor :=
  let wb := (p.writeBuffer.set 1 64).set (writeValueIndex slot) value
  { p with writeBuffer := wb, file := p.file.write wb }

/-- A slot view (`class Device`): the slot index and a (ghost) identifier of
the processor the view references; the processor state itself is passed
explicitly to the operations. -/
structure Device : Type where
  slot : Nat
  processor : Nat
  deriving DecidableEq, Repr

/-- `Device::getSlot`. -/
def Device.getSlot (d : Device) : Nat := d.slot

/-- `Device::getType`: `getDeviceType(processor->readType(slot))`. -/
def Device.getType (d : Device) (p : Processor) : Option (DeviceType × Processor) :=
  (p.readType d.slot).map (fun x => (getDeviceType x.1, x.2))

/-- `Device::getValue`: `processor->readValue(slot)`. -/
def Device.getValue (d : Device) (p : Processor) : Option (Nat × Processor) :=
  p.readValue d.slot

/-- `Device::setValue`: `processor->writeValue(slot, value)`. -/
def Device.setValue (d : Device) (p : Processor) (value : Nat) : Processor :=
  p.writeValue d.slot value

/-- A hub (`class Hub`): name, path, the device views, and the (ghost)
identifier of the single processor the hub owns. -/
structure Hub : Type where
  name : String
  path : String
  devices : List Device
  processor : Nat
  deriving DecidableEq, Repr

/-- The `Hub(name, path, file)` constructor: wraps the channel in a new
processor and pushes exactly `Device{0}` then `Device{1}`, both referencing
that processor. -/
def Hub.make (n p : String) (pid : Nat) : Hub :=
  ⟨n, p, [⟨0, pid⟩, ⟨1, pid⟩], pid⟩

/-- `Hub::getName`. -/
def Hub.getName (h : Hub) : String := h.name

/-- `Hub::getPath`. -/
def Hub.getPath (h : Hub) : String := h.path

/-- `Hub::getDevices`. -/
def Hub.getDevices (h : Hub) : List Device := h.devices

/-- The fixed target vendor identifier: `constexpr std::int16_t vendorId =
0x0694`. -/
def vendorId : Nat := 0x0694

/-- The fixed target product identifier: `constexpr std::int16_t productId =
0x0003`. -/
def productId : Nat := 0x0003

/-- The enumeration error code that means plain end-of-list
(`ERROR_NO_MORE_ITEMS`). -/
def ERROR_NO_MORE_ITEMS : Nat := 259

/-- One candidate device yielded by the platform enumeration, together with
the outcomes of the probing operations `findHubs` performs on it:
`detailOk` — retrieving the interface detail (the device path) succeeds
(its failure is thrown OUTSIDE the per-candidate try block);
`openOk` — opening the channel succeeds; `attrOk` — querying the identifier
attributes succeeds; `vendor`/`product` — the queried identifiers;
`nameOk` — querying the device name succeeds; `encodeOk` — converting the
name to UTF-8 succeeds; `name` — the converted name. -/
structure Candidate : Type where
  detailOk : Bool
  path : String
  openOk : Bool
  attrOk : Bool
  vendor : Nat
  product : Nat
  nameOk : Bool
  encodeOk : Bool
  name : String
  deriving DecidableEq, Repr

/-- One step of the platform enumeration as observed by the scan loop: the
enumeration call either yields a candidate or fails with an error code
(`ERROR_NO_MORE_ITEMS` meaning plain exhaustion). -/
inductive EnumStep : Type where
  | item : Candidate → EnumStep
  | enumFail : Nat → EnumStep
  deriving DecidableEq, Repr

/-- The errors `findHubs` can surface to its caller: an enumeration failure
other than end-of-list, or a failure to retrieve a candidate's interface
detail (both thrown outside the per-candidate try block). -/
inductive FindError : Type where
  | enumError : Nat → FindError
  | detailError : FindError
  deriving DecidableEq, Repr

/-- The body of the per-candidate try block in `findHubs` (src lines
378-404): open the channel (failure is caught: skip), query the identifier
attributes and compare with the fixed pair (mismatch or query failure:
skip, the channel is closed by leaving the block), query and convert the
device name (failure is caught: skip), and on full success construct the
Hub. `Option.none` is a skipped candidate, never a partial Hub. -/
def probeCandidate (c : Candidate) : Option Hub :=
  if c.openOk then
    if c.attrOk && (c.vendor == vendorId) && (c.product == productId) then
      if c.nameOk then
        if c.encodeOk then some (Hub.make c.name c.path 0)
        else Option.none
      else Option.none
    else Option.none
  else Option.none

/-- The `findHubs` scan loop over the enumeration steps: an enumeration
failure with `ERROR_NO_MORE_ITEMS` ends the scan normally, any other
enumeration failure is thrown (aborting the scan and losing the accumulated
hubs); a candidate whose interface detail cannot be retrieved aborts the
scan likewise; otherwise the candidate is probed inside the try block and
contributes its Hub exactly when probing fully succeeds. -/
def findHubs : List EnumStep → Except FindError (List Hub)
  | [] => Except.ok []
  | EnumStep.enumFail code :: _ =>
    if code ≠ ERROR_NO_MORE_ITEMS then Except.error (FindError.enumError code)
    else Except.ok []
  | EnumStep.item c :: rest =>
    if c.detailOk then
      match probeCandidate c, findHubs rest with
      | _, Except.error e => Except.error e
      | some h, Except.ok hs => Except.ok (h :: hs)
      | Option.none, Except.ok hs => Except.ok hs
    else Except.error FindError.detailError

/-- The stub channel of spec section 8: the echo of a transmitted write
report into a read report, write offset `2 + s` mapped to read offset
`3 + s*2` for the two slots (write byte 2 to read byte 3, write byte 3 to
read byte 5). -/
def echoStub (w : List Nat) : List Nat :=
  [0, 0, 0, w.getD 2 0, 0, w.getD 3 0, 0, 0, 0]

/-- The stub channel state after a write: the next read will return the echo
of the last transmitted report. -/
def stubEchoNext (p : Processor) : Processor :=
  { p with file := { p.file with input := [echoStub (p.file.output.getLastD [])] } }

/-- A run of `Processor::writeValue` calls: each element of the list is a
(slot, value) pair. -/
def runWrites (p : Processor) : List (Nat × Nat) → Processor
  | [] => p
  | c :: rest => runWrites (p.writeValue c.1 c.2) rest

/-- The padding bytes of a write report: offset 0 and offsets 4 through 8
are all zero. -/
def zeroFrame (rep : List Nat) : Prop :=
  rep.getD 0 0 = 0 ∧ rep.getD 4 0 = 0 ∧ rep.getD 5 0 = 0 ∧
  rep.getD 6 0 = 0 ∧ rep.getD 7 0 = 0 ∧ rep.getD 8 0 = 0

/-- A list of naturals of length 9 is a literal 9-element list. -/
theorem length_nine_exists (l : List Nat) (h : l.length = 9) :
    ∃ b0 b1 b2 b3 b4 b5 b6 b7 b8, l = [b0, b1, b2, b3, b4, b5, b6, b7, b8] := by
  obtain ⟨b0, l, rfl⟩ := List.exists_of_length_succ l h
  obtain ⟨b1, l, rfl⟩ :=
    List.exists_of_length_succ l (show l.length = 7 + 1 by simp only [List.length_cons] at h; omega)
  obtain ⟨b2, l, rfl⟩ :=
    List.exists_of_length_succ l (show l.length = 6 + 1 by simp only [List.length_cons] at h; omega)
  obtain ⟨b3, l, rfl⟩ :=
    List.exists_of_length_succ l (show l.length = 5 + 1 by simp only [List.length_cons] at h; omega)
  obtain ⟨b4, l, rfl⟩ :=
    List.exists_of_length_succ l (show l.length = 4 + 1 by simp only [List.length_cons] at h; omega)
  obtain ⟨b5, l, rfl⟩ :=
    List.exists_of_length_succ l (show l.length = 3 + 1 by simp only [List.length_cons] at h; omega)
  obtain ⟨b6, l, rfl⟩ :=
    List.exists_of_length_succ l (show l.length = 2 + 1 by simp only [List.length_cons] at h; omega)
  obtain ⟨b7, l, rfl⟩ :=
    List.exists_of_length_succ l (show l.length = 1 + 1 by simp only [List.length_cons] at h; omega)
  obtain ⟨b8, l, rfl⟩ :=
    List.exists_of_length_succ l (show l.length = 0 + 1 by simp only [List.length_cons] at h; omega)
  have hnil : l = [] := List.length_eq_zero.mp (by simp only [List.length_cons] at h; omega)
  subst hnil
  exact ⟨b0, b1, b2, b3, b4, b5, b6, b7, b8, rfl⟩

set_option maxRecDepth 4096 in
/-- Claim C1: for every byte, `Device::getDeviceType` is a pure total
function matching the table of spec section 4.2 exactly: bytes 38 and 39 map
to TiltSensor; 102 and 103 to ServoMotor; 177-180 to DistanceSensor; 202-205
to Light; 231 to None; 0-3, 239, 240 and 241 to Motor; every other byte to
None. -/
theorem C1_decode_table_exact :
    ∀ b : Fin 256, getDeviceType b.val = specDecodeTable b.val := by
  decide

/-- Claim C2: for slot `s ∈ {0,1}` and value `v ∈ [0,255]`:
`Processor::readType(s)` performs a fresh fixed-size 9-byte read and returns
the byte at offset `4 + s*2` of the read buffer; `Processor::readValue(s)`
performs a fresh fixed-size read and returns the byte at offset `3 + s*2`;
`Processor::writeValue(s, v)` sets write-buffer offset 1 to the constant 64,
sets offset `2 + s` to `v`, and transmits the whole 9-byte write buffer. -/
theorem C2_processor_wire_offsets (p : Processor) (s v : Nat) (r : List Nat)
    (restIn : List (List Nat)) (hs : s < 2) (_hv : v < 256) (hr : r.length = 9)
    (hin : p.file.input = r :: restIn) (hwb : p.writeBuffer.length = 9) :
    (p.readType s =
       some (r.getD (4 + s * 2) 0,
         { p with file := { p.file with input := restIn }, readBuffer := r }) ∧
     r.length = 9) ∧
    (p.readValue s =
       some (r.getD (3 + s * 2) 0,
         { p with file := { p.file with input := restIn }, readBuffer := r })) ∧
    ((p.writeValue s v).writeBuffer.getD 1 0 = 64 ∧
     (p.writeValue s v).writeBuffer.getD (2 + s) 0 = v ∧
     (p.writeValue s v).writeBuffer.length = 9 ∧
     (p.writeValue s v).file.output =
       p.file.output ++ [(p.writeValue s v).writeBuffer] ∧
     (p.writeValue s v).file.input = p.file.input) := by
  obtain ⟨⟨fin, fout⟩, rb, wb⟩ := p
  simp only at hin hwb
  subst hin
  obtain ⟨b0, b1, b2, b3, b4, b5, b6, b7, b8, rfl⟩ := length_nine_exists wb hwb
  refine ⟨⟨rfl, hr⟩, rfl, ?_⟩
  interval_cases s <;>
    simp [Processor.writeValue, writeValueIndex, File.write]

/-- Claim C7: the write buffer is persistent state across calls: starting
from a freshly constructed processor, `writeValue(0, 10)` then
`writeValue(1, 20)` transmits a second 9-byte report whose byte at offset 2
is 10 and whose byte at offset 3 is 20 — writing one slot leaves the other
slot's last-written byte unchanged in the buffer. -/
theorem C7_sticky_write_buffer :
    (((Processor.make ⟨[], []⟩).writeValue 0 10).writeValue 1 20).file.output =
      [[0, 64, 10, 0, 0, 0, 0, 0, 0], [0, 64, 10, 20, 0, 0, 0, 0, 0]] ∧
    ((((Processor.make ⟨[], []⟩).writeValue 0 10).writeValue 1 20).file.output.getD
        1 []).getD 2 0 = 10 ∧
    ((((Processor.make ⟨[], []⟩).writeValue 0 10).writeValue 1 20).file.output.getD
        1 []).getD 3 0 = 20 := by
  decide

/-- Claim C9: under the precondition `slot ∈ {0,1}`, every buffer offset used
by `Processor::readType`, `Processor::readValue` and `Processor::writeValue`
is within the 9-byte buffers — the largest index used is 6 for reads and 3
for writes; the bound is not checked by the code (for example slot 3 would
index the read buffer at offset 10, past its end), so a slot outside `{0,1}`
is a genuine precondition, not a handled error. -/
theorem C9_buffer_indices_in_bounds (slot : Nat) (h : slot < 2) :
    (readTypeIndex slot < 9 ∧ readValueIndex slot < 9 ∧
     writeValueIndex slot < 9 ∧
     readTypeIndex slot ≤ 6 ∧ readValueIndex slot ≤ 6 ∧
     writeValueIndex slot ≤ 3) ∧
    (readTypeIndex 3 = 10 ∧ ¬ readTypeIndex 3 < 9) := by
  constructor
  · interval_cases slot <;> simp [readTypeIndex, readValueIndex, writeValueIndex]
  · simp [readTypeIndex]

/-- Witness for C2 at slot 0, value 5, a concrete report and processor. -/
theorem C2_processor_wire_offsets_witness :
    ((Processor.make ⟨[[9, 9, 9, 9, 9, 9, 9, 9, 9]], []⟩).readType 0 =
       some (([9, 9, 9, 9, 9, 9, 9, 9, 9] : List Nat).getD (4 + 0 * 2) 0,
         { Processor.make ⟨[[9, 9, 9, 9, 9, 9, 9, 9, 9]], []⟩ with
             file := { (Processor.make ⟨[[9, 9, 9, 9, 9, 9, 9, 9, 9]], []⟩).file with
                         input := [] },
             readBuffer := [9, 9, 9, 9, 9, 9, 9, 9, 9] }) ∧
     ([9, 9, 9, 9, 9, 9, 9, 9, 9] : List Nat).length = 9) ∧
    ((Processor.make ⟨[[9, 9, 9, 9, 9, 9, 9, 9, 9]], []⟩).readValue 0 =
       some (([9, 9, 9, 9, 9, 9, 9, 9, 9] : List Nat).getD (3 + 0 * 2) 0,
         { Processor.make ⟨[[9, 9, 9, 9, 9, 9, 9, 9, 9]], []⟩ with
             file := { (Processor.make ⟨[[9, 9, 9, 9, 9, 9, 9, 9, 9]], []⟩).file with
                         input := [] },
             readBuffer := [9, 9, 9, 9, 9, 9, 9, 9, 9] })) ∧
    (((Processor.make ⟨[[9, 9, 9, 9, 9, 9, 9, 9, 9]], []⟩).writeValue 0 5).writeBuffer.getD 1 0 = 64 ∧
     ((Processor.make ⟨[[9, 9, 9, 9, 9, 9, 9, 9, 9]], []⟩).writeValue 0 5).writeBuffer.getD (2 + 0) 0 = 5 ∧
     ((Processor.make ⟨[[9, 9, 9, 9, 9, 9, 9, 9, 9]], []⟩).writeValue 0 5).writeBuffer.length = 9 ∧
     ((Processor.make ⟨[[9, 9, 9, 9, 9, 9, 9, 9, 9]], []⟩).writeValue 0 5).file.output =
       (Processor.make ⟨[[9, 9, 9, 9, 9, 9, 9, 9, 9]], []⟩).file.output ++
         [((Processor.make ⟨[[9, 9, 9, 9, 9, 9, 9, 9, 9]], []⟩).writeValue 0 5).writeBuffer] ∧
     ((Processor.make ⟨[[9, 9, 9, 9, 9, 9, 9, 9, 9]], []⟩).writeValue 0 5).file.input =
       (Processor.make ⟨[[9, 9, 9, 9, 9, 9, 9, 9, 9]], []⟩).file.input) :=
  C2_processor_wire_offsets (Processor.make ⟨[[9, 9, 9, 9, 9, 9, 9, 9, 9]], []⟩)
    0 5 [9, 9, 9, 9, 9, 9, 9, 9, 9] [] (by decide) (by decide) (by decide)
    (by decide) (by decide)

/-- Witness for C9 at slot 1. -/
theorem C9_buffer_indices_in_bounds_witness :
    (readTypeIndex 1 < 9 ∧ readValueIndex 1 < 9 ∧ writeValueIndex 1 < 9 ∧
     readTypeIndex 1 ≤ 6 ∧ readValueIndex 1 ≤ 6 ∧ writeValueIndex 1 ≤ 3) ∧
    (readTypeIndex 3 = 10 ∧ ¬ readTypeIndex 3 < 9) :=
  C9_buffer_indices_in_bounds 1 (by decide)

/-- Claim C4: every Hub, once constructed, has exactly two Device views,
ordered by slot index [0, 1], each referencing the Hub's single Processor.
The only Hub operations in the source are the pure accessors `getName`,
`getPath` and `getDevices`, none of which changes the device sequence:
`getDevices` returns it unchanged. -/
theorem C4_hub_exactly_two_devices (n p : String) (pid : Nat) :
    (Hub.make n p pid).devices = [⟨0, pid⟩, ⟨1, pid⟩] ∧
    (Hub.make n p pid).getDevices = (Hub.make n p pid).devices ∧
    (Hub.make n p pid).devices.length = 2 ∧
    (Hub.make n p pid).devices.map Device.getSlot = [0, 1] ∧
    (Hub.make n p pid).devices.map Device.processor =
      [(Hub.make n p pid).processor, (Hub.make n p pid).processor] ∧
    (Hub.make n p pid).getName = n ∧ (Hub.make n p pid).getPath = p :=
  ⟨rfl, rfl, rfl, rfl, rfl, rfl, rfl⟩

/-- Claim C8: for every slot `s ∈ {0,1}` and value `v ∈ [0,255]`, against a
stub channel that echoes each transmitted write report into the read buffer
at the corresponding offsets (write offset `2+s` mapped to read offset
`3+s*2`), `Device::setValue(v)` on slot `s` followed immediately by
`Device::getValue()` on slot `s` returns `v`. -/
theorem C8_set_then_get_roundtrip (p : Processor) (d : Device) (v : Nat)
    (hs : d.slot < 2) (_hv : v < 256) (hwb : p.writeBuffer.length = 9) :
    (d.getValue (stubEchoNext (d.setValue p v))).map Prod.fst = some v := by
  obtain ⟨s, pid⟩ := d
  obtain ⟨⟨fin, fout⟩, rb, wb⟩ := p
  simp only at hwb
  obtain ⟨b0, b1, b2, b3, b4, b5, b6, b7, b8, rfl⟩ := length_nine_exists wb hwb
  simp only [Device.slot] at hs
  interval_cases s <;>
    simp [Device.setValue, Device.getValue, Processor.writeValue,
      Processor.readValue, writeValueIndex, readValueIndex, File.write,
      File.read, stubEchoNext, echoStub]

/-- Witness for C8 at slot 1, value 77. -/
theorem C8_set_then_get_roundtrip_witness :
    ((Device.mk 1 0).getValue
        (stubEchoNext ((Device.mk 1 0).setValue (Processor.make ⟨[], []⟩) 77))).map
      Prod.fst = some 77 :=
  C8_set_then_get_roundtrip (Processor.make ⟨[], []⟩) (Device.mk 1 0) 77
    (by decide) (by decide) (by decide)

/-- Invariant run lemma for C10: if the write buffer has the shape
`[0, b1, b2, b3, 0, 0, 0, 0, 0]` and every report transmitted so far has
zero padding, then after any run of `writeValue` calls with slots in
`{0, 1}` every transmitted report still has zero padding. -/
theorem runWrites_zeroFrame (calls : List (Nat × Nat)) (p : Processor)
    (hwb : ∃ b1 b2 b3, p.writeBuffer = [0, b1, b2, b3, 0, 0, 0, 0, 0])
    (hout : ∀ rep ∈ p.file.output, zeroFrame rep)
    (hcalls : ∀ c ∈ calls, c.1 < 2) :
    ∀ rep ∈ (runWrites p calls).file.output, zeroFrame rep := by
  induction calls generalizing p with
  | nil => exact hout
  | cons c rest ih =>
    obtain ⟨b1, b2, b3, hw⟩ := hwb
    have hc : c.1 < 2 := hcalls c (List.mem_cons_self c rest)
    apply ih
    · obtain ⟨⟨fin, fout⟩, rb, wb⟩ := p
      simp only at hw
      subst hw
      interval_cases h : c.1 <;>
        simp [Processor.writeValue, writeValueIndex, h]
    · intro rep hrep
      obtain ⟨⟨fin, fout⟩, rb, wb⟩ := p
      simp only at hw
      subst hw
      simp only [Processor.writeValue, File.write] at hrep
      rcases List.mem_append.mp hrep with hold | hnew
      · exact hout rep hold
      · rw [List.mem_singleton.mp hnew]
        interval_cases h : c.1 <;>
          simp [writeValueIndex, h, zeroFrame]
    · exact fun x hx => hcalls x (List.mem_cons_of_mem c hx)

/-- Claim C10: in every write report a Processor ever transmits, the bytes at
offset 0 and at offsets 4 through 8 are zero: the write buffer is
zero-initialized at construction and `writeValue` only ever assigns offsets
1, 2 and 3 (offset `2 + slot` with slot in `{0, 1}`), so the remaining six
bytes stay zero for the Processor's entire lifetime. -/
theorem C10_transmitted_padding_zero (calls : List (Nat × Nat))
    (hcalls : ∀ c ∈ calls, c.1 < 2) :
    ∀ rep ∈ (runWrites (Processor.make ⟨[], []⟩) calls).file.output,
      rep.getD 0 0 = 0 ∧ rep.getD 4 0 = 0 ∧ rep.getD 5 0 = 0 ∧
      rep.getD 6 0 = 0 ∧ rep.getD 7 0 = 0 ∧ rep.getD 8 0 = 0 :=
  runWrites_zeroFrame calls (Processor.make ⟨[], []⟩)
    ⟨0, 0, 0, rfl⟩ (by intro rep hrep; simp [Processor.make] at hrep) hcalls

/-- A fully successful probe requires matching identifiers and success of
every probing operation, and yields exactly the constructed Hub. -/
theorem probeCandidate_eq_some (c : Candidate) (h : Hub)
    (hp : probeCandidate c = some h) :
    c.vendor = vendorId ∧ c.product = productId ∧ c.openOk = true ∧
    c.attrOk = true ∧ c.nameOk = true ∧ c.encodeOk = true ∧
    h = Hub.make c.name c.path 0 := by
  obtain ⟨dok, pa, oo, ao, ve, pr, no, eo, na⟩ := c
  cases oo <;> cases ao <;> cases no <;> cases eo <;>
    simp_all [probeCandidate]

/-- A candidate whose queried identifiers do not match the fixed pair is
always skipped by the probe. -/
theorem probeCandidate_mismatch (c : Candidate)
    (hne : c.vendor ≠ vendorId ∨ c.product ≠ productId) :
    probeCandidate c = Option.none := by
  obtain ⟨dok, pa, oo, ao, ve, pr, no, eo, na⟩ := c
  rcases hne with hne | hne <;> cases oo <;> cases ao <;>
    simp_all [probeCandidate]

/-- A candidate that fails to open, or a matched candidate that fails name
retrieval or name conversion, is skipped by the probe. -/
theorem probeCandidate_failure (c : Candidate)
    (hfail : c.openOk = false ∨ c.nameOk = false ∨ c.encodeOk = false) :
    probeCandidate c = Option.none := by
  obtain ⟨dok, pa, oo, ao, ve, pr, no, eo, na⟩ := c
  rcases hfail with hf | hf | hf <;>
    cases oo <;> cases ao <;> cases no <;> cases eo <;>
      simp_all [probeCandidate]

/-- Unfolding of the scan on a candidate whose interface detail was
retrieved. -/
theorem findHubs_item_cons (c : Candidate) (rest : List EnumStep)
    (hd : c.detailOk = true) :
    findHubs (EnumStep.item c :: rest) =
      match probeCandidate c, findHubs rest with
      | _, Except.error e => Except.error e
      | some h, Except.ok hs => Except.ok (h :: hs)
      | Option.none, Except.ok hs => Except.ok hs := by
  simp [findHubs, hd]

/-- A candidate whose probe is skipped contributes nothing to the scan. -/
theorem findHubs_skip_item (c : Candidate) (rest : List EnumStep)
    (hd : c.detailOk = true) (hp : probeCandidate c = Option.none) :
    findHubs (EnumStep.item c :: rest) = findHubs rest := by
  rw [findHubs_item_cons c rest hd, hp]
  cases findHubs rest <;> rfl

/-- Claim C3: the hub list returned by `findHubs` never includes a Hub
constructed from a candidate whose queried vendor/product identifier pair
does not equal (0x0694, 0x0003): every returned Hub is the fully successful
probe of some enumerated candidate with matching identifiers, and a
candidate with a mismatched identifier pair is always skipped. -/
theorem C3_only_matching_hubs (steps : List EnumStep) (hubs : List Hub)
    (h : Hub) (hok : findHubs steps = Except.ok hubs) (hmem : h ∈ hubs) :
    (∃ c, EnumStep.item c ∈ steps ∧ c.vendor = vendorId ∧
       c.product = productId ∧ probeCandidate c = some h) ∧
    (∀ c, c.vendor ≠ vendorId ∨ c.product ≠ productId →
       probeCandidate c = Option.none) := by
  refine ⟨?_, fun c hne => probeCandidate_mismatch c hne⟩
  induction steps generalizing hubs with
  | nil =>
    simp only [findHubs, Except.ok.injEq] at hok
    subst hok
    exact absurd hmem (List.not_mem_nil h)
  | cons s rest ih =>
    match s with
    | EnumStep.enumFail code =>
      simp only [findHubs] at hok
      split at hok
      · simp at hok
      · simp only [Except.ok.injEq] at hok
        subst hok
        exact absurd hmem (List.not_mem_nil h)
    | EnumStep.item c =>
      by_cases hdet : c.detailOk = true
      · rw [findHubs_item_cons c rest hdet] at hok
        rcases hpc : probeCandidate c with _ | h' <;> rw [hpc] at hok <;>
          rcases hrest : findHubs rest with e | hs <;> rw [hrest] at hok
        · simp at hok
        · obtain rfl : hs = hubs := by simpa using hok
          obtain ⟨c', hc'mem, hc'v, hc'p, hc'probe⟩ := ih hs hrest hmem
          exact ⟨c', List.mem_cons_of_mem _ hc'mem, hc'v, hc'p, hc'probe⟩
        · simp at hok
        · obtain rfl : h' :: hs = hubs := by simpa using hok
          rcases List.mem_cons.mp hmem with rfl | hmem'
          · obtain ⟨hv, hp, _⟩ := probeCandidate_eq_some c h hpc
            exact ⟨c, List.mem_cons_self _ _, hv, hp, hpc⟩
          · obtain ⟨c', hc'mem, hc'v, hc'p, hc'probe⟩ := ih hs hrest hmem'
            exact ⟨c', List.mem_cons_of_mem _ hc'mem, hc'v, hc'p, hc'probe⟩
      · rw [Bool.not_eq_true] at hdet
        simp only [findHubs, hdet] at hok
        simp at hok

/-- Witness for C3: a two-step enumeration whose second candidate matches
and fully succeeds; the returned Hub comes from that candidate. -/
theorem C3_only_matching_hubs_witness :
    (∃ c, EnumStep.item c ∈
        [EnumStep.item ⟨true, "p0", true, true, 1, 1, true, true, "n0"⟩,
         EnumStep.item ⟨true, "p1", true, true, 0x0694, 0x0003, true, true, "n1"⟩] ∧
       c.vendor = vendorId ∧ c.product = productId ∧
       probeCandidate c = some (Hub.make "n1" "p1" 0)) ∧
    (∀ c, c.vendor ≠ vendorId ∨ c.product ≠ productId →
       probeCandidate c = Option.none) :=
  C3_only_matching_hubs
    [EnumStep.item ⟨true, "p0", true, true, 1, 1, true, true, "n0"⟩,
     EnumStep.item ⟨true, "p1", true, true, 0x0694, 0x0003, true, true, "n1"⟩]
    [Hub.make "n1" "p1" 0] (Hub.make "n1" "p1" 0) rfl
    (List.mem_singleton.mpr rfl)

/-- Claim C5: a transport or encoding failure while probing a single
candidate — failure to open the channel, or failure to retrieve or convert
the name of a candidate that already matched the identifiers — causes only
that candidate to be skipped: the scan continues on the remaining steps
exactly as if the candidate were absent, a scan consisting only of such a
candidate still returns an (empty) hub list, and no partially-constructed
Hub is ever included. -/
theorem C5_candidate_failure_skipped (c : Candidate) (rest : List EnumStep)
    (hdetail : c.detailOk = true)
    (hfail : c.openOk = false ∨
      (c.vendor = vendorId ∧ c.product = productId ∧
        (c.nameOk = false ∨ c.encodeOk = false))) :
    findHubs (EnumStep.item c :: rest) = findHubs rest ∧
    findHubs [EnumStep.item c] = Except.ok [] := by
  have hp : probeCandidate c = Option.none := by
    rcases hfail with hf | ⟨_, _, hf | hf⟩
    · exact probeCandidate_failure c (Or.inl hf)
    · exact probeCandidate_failure c (Or.inr (Or.inl hf))
    · exact probeCandidate_failure c (Or.inr (Or.inr hf))
  exact ⟨findHubs_skip_item c rest hdetail hp,
    findHubs_skip_item c [] hdetail hp⟩

/-- Witness for C5: a matched candidate whose name retrieval fails, followed
by a fully successful matched candidate; the failing candidate is skipped
and the scan still returns the later Hub. -/
theorem C5_candidate_failure_skipped_witness :
    findHubs
        [EnumStep.item ⟨true, "p0", true, true, 0x0694, 0x0003, false, true, "n0"⟩,
         EnumStep.item ⟨true, "p1", true, true, 0x0694, 0x0003, true, true, "n1"⟩] =
      findHubs
        [EnumStep.item ⟨true, "p1", true, true, 0x0694, 0x0003, true, true, "n1"⟩] ∧
    findHubs
        [EnumStep.item ⟨true, "p0", true, true, 0x0694, 0x0003, false, true, "n0"⟩] =
      Except.ok [] :=
  C5_candidate_failure_skipped
    ⟨true, "p0", true, true, 0x0694, 0x0003, false, true, "n0"⟩
    [EnumStep.item ⟨true, "p1", true, true, 0x0694, 0x0003, true, true, "n1"⟩]
    (by decide) (by decide)

/-- Claim C6: an enumeration failure with any code other than
`ERROR_NO_MORE_ITEMS` aborts the entire scan with that error, returning no
hubs, no matter how many candidates were already processed or what follows;
an enumeration failure with `ERROR_NO_MORE_ITEMS` terminates the scan
normally, returning exactly the hubs accumulated so far. -/
theorem C6_enum_failure_fatal_exhaustion_normal (pre rest : List EnumStep)
    (code : Nat)
    (hpre : ∀ s ∈ pre, ∃ c, s = EnumStep.item c ∧ c.detailOk = true) :
    (code ≠ ERROR_NO_MORE_ITEMS →
       findHubs (pre ++ EnumStep.enumFail code :: rest) =
         Except.error (FindError.enumError code)) ∧
    (findHubs (pre ++ EnumStep.enumFail ERROR_NO_MORE_ITEMS :: rest) =
       findHubs pre ∧
     ∃ hs, findHubs pre = Except.ok hs) := by
  induction pre with
  | nil =>
    refine ⟨fun hcode => ?_, ?_, ⟨[], rfl⟩⟩
    · simp [findHubs, hcode]
    · simp [findHubs]
  | cons s pre ih =>
    obtain ⟨c, rfl, hdet⟩ := hpre s (List.mem_cons_self s pre)
    obtain ⟨ih1, ih2, hs, ih3⟩ := ih (fun x hx => hpre x (List.mem_cons_of_mem _ hx))
    refine ⟨fun hcode => ?_, ?_, ?_⟩
    · rw [List.cons_append, findHubs_item_cons c _ hdet, ih1 hcode]
      cases probeCandidate c <;> rfl
    · rw [List.cons_append, findHubs_item_cons c _ hdet, ih2,
        findHubs_item_cons c pre hdet]
    · rw [findHubs_item_cons c pre hdet, ih3]
      cases probeCandidate c
      · exact ⟨hs, rfl⟩
      · exact ⟨_ :: hs, rfl⟩

/-- Witness for C6: one successfully probed candidate, then an enumeration
failure with code 5 (fatal) or with `ERROR_NO_MORE_ITEMS` (normal end). -/
theorem C6_enum_failure_fatal_exhaustion_normal_witness :
    ((5 : Nat) ≠ ERROR_NO_MORE_ITEMS →
       findHubs
           [EnumStep.item ⟨true, "p1", true, true, 0x0694, 0x0003, true, true, "n1"⟩,
            EnumStep.enumFail 5] =
         Except.error (FindError.enumError 5)) ∧
    (findHubs
         [EnumStep.item ⟨true, "p1", true, true, 0x0694, 0x0003, true, true, "n1"⟩,
          EnumStep.enumFail ERROR_NO_MORE_ITEMS] =
       findHubs
         [EnumStep.item ⟨true, "p1", true, true, 0x0694, 0x0003, true, true, "n1"⟩] ∧
     ∃ hs, findHubs
         [EnumStep.item ⟨true, "p1", true, true, 0x0694, 0x0003, true, true, "n1"⟩] =
       Except.ok hs) :=
  C6_enum_failure_fatal_exhaustion_normal
    [EnumStep.item ⟨true, "p1", true, true, 0x0694, 0x0003, true, true, "n1"⟩]
    [] 5
    (by
      intro s hs
      rw [List.mem_singleton] at hs
      exact ⟨_, hs, rfl⟩)

/-- Witness for C10: the run writeValue(0, 10) then writeValue(1, 20); the
second transmitted report. -/
theorem C10_transmitted_padding_zero_witness :
    ([0, 64, 10, 20, 0, 0, 0, 0, 0] : List Nat).getD 0 0 = 0 ∧
    ([0, 64, 10, 20, 0, 0, 0, 0, 0] : List Nat).getD 4 0 = 0 ∧
    ([0, 64, 10, 20, 0, 0, 0, 0, 0] : List Nat).getD 5 0 = 0 ∧
    ([0, 64, 10, 20, 0, 0, 0, 0, 0] : List Nat).getD 6 0 = 0 ∧
    ([0, 64, 10, 20, 0, 0, 0, 0, 0] : List Nat).getD 7 0 = 0 ∧
    ([0, 64, 10, 20, 0, 0, 0, 0, 0] : List Nat).getD 8 0 = 0 :=
  C10_transmitted_padding_zero [(0, 10), (1, 20)] (by decide)
    [0, 64, 10, 20, 0, 0, 0, 0, 0] (by decide)

end wedopp
